import Mathlib

/-!
Shallow embedding of `src/app.py` (Processador de Planilhas CAEDU).

Scalar cell values coming out of the CSV table are modelled by `Cell`:
missing (`NaN`/`None`), text, an `int` cell, or a float64 cell of exact
integral value (what `pd.read_csv` produces for an integer-looking cell
in a numeric column that contains any blank).  Python string operations
used by the source are embedded as executable functions over
`List Char` / `String`:

* `isPyDigit` embeds the regex character class `\d`, which in Python 3
  matches any Unicode decimal digit (category Nd), not only ASCII `0-9`.
  The table below lists the Nd ranges of the Basic Multilingual Plane;
  digit blocks of the supplementary planes (rare historic scripts) are
  omitted — no claim here depends on them.
* `isPySpace` embeds both the regex class `\s` and `str.isspace`/`str.strip`
  whitespace (ASCII whitespace, the C0 separators, NEL, NBSP and the
  Unicode space separators).
* `natToDec`/`intToDec` embed `str()` applied to a Python `int`: plain
  decimal digits (with a leading minus sign for negatives), never an
  exponent form.  `floatToText` embeds `str()` applied to an integral
  float64: the decimal digits followed by ".0".
* `upperRules`/`upperMulti`/`pyUpperChar` embed `str.upper()` with the
  full case mapping of the Unicode database.
-/

namespace Higienizacao

/-- Unicode Nd (decimal digit) ranges of the Basic Multilingual Plane,
as pairs of (first, last) code points. -/
def ndRanges : List (Nat × Nat) :=
  [(0x30, 0x39), (0x660, 0x669), (0x6F0, 0x6F9), (0x7C0, 0x7C9),
   (0x966, 0x96F), (0x9E6, 0x9EF), (0xA66, 0xA6F), (0xAE6, 0xAEF),
   (0xB66, 0xB6F), (0xBE6, 0xBEF), (0xC66, 0xC6F), (0xCE6, 0xCEF),
   (0xD66, 0xD6F), (0xDE6, 0xDEF), (0xE50, 0xE59), (0xED0, 0xED9),
   (0xF20, 0xF29), (0x1040, 0x1049), (0x1090, 0x1099), (0x17E0, 0x17E9),
   (0x1810, 0x1819), (0x1946, 0x194F), (0x19D0, 0x19D9), (0x1A80, 0x1A89),
   (0x1A90, 0x1A99), (0x1B50, 0x1B59), (0x1BB0, 0x1BB9), (0x1C40, 0x1C49),
   (0x1C50, 0x1C59), (0xA620, 0xA629), (0xA8D0, 0xA8D9), (0xA900, 0xA909),
   (0xA9D0, 0xA9D9), (0xA9F0, 0xA9F9), (0xAA50, 0xAA59), (0xABF0, 0xABF9),
   (0xFF10, 0xFF19)]

/-- Embeds the Python regex class `\d` (any Unicode decimal digit). -/
def isPyDigit (c : Char) : Bool :=
  decide (∃ r ∈ ndRanges, r.1 ≤ c.toNat ∧ c.toNat ≤ r.2)

/-- Code points stripped by `str.strip()` and matched by the regex class
`\s` (Python whitespace). -/
def spaceVals : List Nat :=
  [0x09, 0x0A, 0x0B, 0x0C, 0x0D, 0x1C, 0x1D, 0x1E, 0x1F, 0x20,
   0x85, 0xA0, 0x1680, 0x2000, 0x2001, 0x2002, 0x2003, 0x2004, 0x2005,
   0x2006, 0x2007, 0x2008, 0x2009, 0x200A, 0x2028, 0x2029, 0x202F,
   0x205F, 0x3000]

/-- Embeds Python whitespace (`\s`, `str.strip`, `str.split`). -/
def isPySpace (c : Char) : Bool :=
  decide (c.toNat ∈ spaceVals)

/-- The decimal digit character for `m % 10`. -/
def decDigit (m : Nat) : Char :=
  if m % 10 = 0 then '0'
  else if m % 10 = 1 then '1'
  else if m % 10 = 2 then '2'
  else if m % 10 = 3 then '3'
  else if m % 10 = 4 then '4'
  else if m % 10 = 5 then '5'
  else if m % 10 = 6 then '6'
  else if m % 10 = 7 then '7'
  else if m % 10 = 8 then '8'
  else '9'

/-- Digit accumulator for `natToDec`.  The first argument is fuel; any
fuel at least the number of decimal digits of `n` gives the exact decimal
expansion (callers pass `n` itself, which always suffices). -/
def natToDecAux : Nat → Nat → List Char → List Char
  | _, 0, acc => acc
  | 0, _ + 1, acc => acc
  | fuel + 1, n + 1, acc =>
    natToDecAux fuel ((n + 1) / 10) (decDigit (n + 1) :: acc)

/-- Decimal representation of a natural number (embeds Python `str` on a
non-negative `int`). -/
def natToDec (n : Nat) : String :=
  if n = 0 then "0" else String.mk (natToDecAux n n [])

/-- Decimal representation of an integer (embeds Python `str` on `int`). -/
def intToDec (i : Int) : String :=
  if i < 0 then String.mk ('-' :: (natToDec i.natAbs).data) else natToDec i.toNat

/-- Embeds Python `str()` on a float64 cell holding the exact integral
value `m` with `|m| < 1e16`: CPython prints it as the decimal digits of
`m` followed by ".0". -/
def floatToText (m : {m : Int // m.natAbs < 10 ^ 16}) : String :=
  String.mk ((intToDec m.val).data ++ ['.', '0'])

/-- A scalar cell of the input table: missing (`NaN`/`None`, where
`pd.isna` is true), a text value, an `int` value, or a float64 value of
exact integral magnitude below 1e16 — `pd.read_csv` yields float64 for a
numeric column containing any blank, and below 1e16 CPython prints such a
float in plain notation (at 1e16 and beyond it would switch to exponent
notation, which is why the model's float cells carry that bound). -/
inductive Cell
  | missing
  | text (s : String)
  | num (n : Int)
  | fnum (m : {m : Int // m.natAbs < 10 ^ 16})
deriving DecidableEq

/-- Embeds `str(v)` on a cell value (only reached after the `pd.isna`
guards, so the `missing` branch is never relied upon). -/
def cellToText : Cell → String
  | Cell.missing => ""
  | Cell.text s => s
  | Cell.num n => intToDec n
  | Cell.fnum m => floatToText m

/-- The guard `pd.isna(v) or v == ''` shared by the three normalizers
(in Python, `v == ''` only holds for the empty string). -/
def cellEmpty (c : Cell) : Prop :=
  c = Cell.missing ∨ c = Cell.text ""

instance (c : Cell) : Decidable (cellEmpty c) := by
  unfold cellEmpty; infer_instance

/-- Embeds the Python slice `x[-11:]` (the rightmost 11 characters). -/
def pyLast11 (l : List Char) : List Char :=
  l.drop (l.length - 11)

/-- Embeds `limpa_cpf_google_sheets` (src/app.py lines 12-30):
empty guard, `str(cpf)`, strip every non-`\d` character, prepend eleven
zeros and keep the rightmost 11 characters. -/
def limpa_cpf_google_sheets (cpf : Cell) : String :=
  if cellEmpty cpf then ""
  else
    let cpf_str := cellToText cpf
    let cpf_apenas_digitos := cpf_str.data.filter isPyDigit
    String.mk (pyLast11 ("00000000000".data ++ cpf_apenas_digitos))

/-- Embeds `str.strip()`: drop Python whitespace from both ends. -/
def pyStrip (l : List Char) : List Char :=
  ((l.dropWhile isPySpace).reverse.dropWhile isPySpace).reverse

/-- Embeds `str.split()` (no argument): split on runs of whitespace,
dropping empty tokens.  `acc` holds the current token, reversed. -/
def splitWsAux : List Char → List Char → List (List Char)
  | acc, [] => if acc = [] then [] else [acc.reverse]
  | acc, c :: rest =>
    if isPySpace c then
      if acc = [] then splitWsAux [] rest else acc.reverse :: splitWsAux [] rest
    else splitWsAux (c :: acc) rest

/-- Embeds `str.split()` on a string's characters. -/
def pySplitWs (l : List Char) : List (List Char) :=
  splitWsAux [] l

/-- Range rules of the `str.upper()` case mapping: a code point `n` with
`lo ≤ n ≤ hi` and `(n - lo) % step = 0` uppercases to the single code
point `n + delta`.  Generated from CPython's Unicode database and checked
against it on every code point. -/
def upperRules : List (Nat × Nat × Nat × Int) :=
  [
    (0x61, 0x7A, 1, -32), (0xB5, 0xB5, 1, 743), (0xE0, 0xF6, 1, -32),
    (0xF8, 0xFE, 1, -32), (0xFF, 0xFF, 1, 121), (0x101, 0x12F, 2, -1),
    (0x131, 0x131, 1, -232), (0x133, 0x137, 2, -1), (0x13A, 0x148, 2, -1),
    (0x14B, 0x177, 2, -1), (0x17A, 0x17E, 2, -1), (0x17F, 0x17F, 1, -300),
    (0x180, 0x180, 1, 195), (0x183, 0x185, 2, -1), (0x188, 0x188, 1, -1),
    (0x18C, 0x18C, 1, -1), (0x192, 0x192, 1, -1), (0x195, 0x195, 1, 97),
    (0x199, 0x199, 1, -1), (0x19A, 0x19A, 1, 163), (0x19E, 0x19E, 1, 130),
    (0x1A1, 0x1A5, 2, -1), (0x1A8, 0x1A8, 1, -1), (0x1AD, 0x1AD, 1, -1),
    (0x1B0, 0x1B0, 1, -1), (0x1B4, 0x1B6, 2, -1), (0x1B9, 0x1B9, 1, -1),
    (0x1BD, 0x1BD, 1, -1), (0x1BF, 0x1BF, 1, 56), (0x1C5, 0x1C5, 1, -1),
    (0x1C6, 0x1C6, 1, -2), (0x1C8, 0x1C8, 1, -1), (0x1C9, 0x1C9, 1, -2),
    (0x1CB, 0x1CB, 1, -1), (0x1CC, 0x1CC, 1, -2), (0x1CE, 0x1DC, 2, -1),
    (0x1DD, 0x1DD, 1, -79), (0x1DF, 0x1EF, 2, -1), (0x1F2, 0x1F2, 1, -1),
    (0x1F3, 0x1F3, 1, -2), (0x1F5, 0x1F5, 1, -1), (0x1F9, 0x21F, 2, -1),
    (0x223, 0x233, 2, -1), (0x23C, 0x23C, 1, -1), (0x23F, 0x240, 1, 10815),
    (0x242, 0x242, 1, -1), (0x247, 0x24F, 2, -1), (0x250, 0x250, 1, 10783),
    (0x251, 0x251, 1, 10780), (0x252, 0x252, 1, 10782),
    (0x253, 0x253, 1, -210), (0x254, 0x254, 1, -206), (0x256, 0x257, 1, -205),
    (0x259, 0x259, 1, -202), (0x25B, 0x25B, 1, -203),
    (0x25C, 0x25C, 1, 42319), (0x260, 0x260, 1, -205),
    (0x261, 0x261, 1, 42315), (0x263, 0x263, 1, -207),
    (0x265, 0x265, 1, 42280), (0x266, 0x266, 1, 42308),
    (0x268, 0x268, 1, -209), (0x269, 0x269, 1, -211),
    (0x26A, 0x26A, 1, 42308), (0x26B, 0x26B, 1, 10743),
    (0x26C, 0x26C, 1, 42305), (0x26F, 0x26F, 1, -211),
    (0x271, 0x271, 1, 10749), (0x272, 0x272, 1, -213),
    (0x275, 0x275, 1, -214), (0x27D, 0x27D, 1, 10727),
    (0x280, 0x280, 1, -218), (0x282, 0x282, 1, 42307),
    (0x283, 0x283, 1, -218), (0x287, 0x287, 1, 42282),
    (0x288, 0x288, 1, -218), (0x289, 0x289, 1, -69), (0x28A, 0x28B, 1, -217),
    (0x28C, 0x28C, 1, -71), (0x292, 0x292, 1, -219), (0x29D, 0x29D, 1, 42261),
    (0x29E, 0x29E, 1, 42258), (0x345, 0x345, 1, 84), (0x371, 0x373, 2, -1),
    (0x377, 0x377, 1, -1), (0x37B, 0x37D, 1, 130), (0x3AC, 0x3AC, 1, -38),
    (0x3AD, 0x3AF, 1, -37), (0x3B1, 0x3C1, 1, -32), (0x3C2, 0x3C2, 1, -31),
    (0x3C3, 0x3CB, 1, -32), (0x3CC, 0x3CC, 1, -64), (0x3CD, 0x3CE, 1, -63),
    (0x3D0, 0x3D0, 1, -62), (0x3D1, 0x3D1, 1, -57), (0x3D5, 0x3D5, 1, -47),
    (0x3D6, 0x3D6, 1, -54), (0x3D7, 0x3D7, 1, -8), (0x3D9, 0x3EF, 2, -1),
    (0x3F0, 0x3F0, 1, -86), (0x3F1, 0x3F1, 1, -80), (0x3F2, 0x3F2, 1, 7),
    (0x3F3, 0x3F3, 1, -116), (0x3F5, 0x3F5, 1, -96), (0x3F8, 0x3F8, 1, -1),
    (0x3FB, 0x3FB, 1, -1), (0x430, 0x44F, 1, -32), (0x450, 0x45F, 1, -80),
    (0x461, 0x481, 2, -1), (0x48B, 0x4BF, 2, -1), (0x4C2, 0x4CE, 2, -1),
    (0x4CF, 0x4CF, 1, -15), (0x4D1, 0x52F, 2, -1), (0x561, 0x586, 1, -48),
    (0x10D0, 0x10FA, 1, 3008), (0x10FD, 0x10FF, 1, 3008),
    (0x13F8, 0x13FD, 1, -8), (0x1C80, 0x1C80, 1, -6254),
    (0x1C81, 0x1C81, 1, -6253), (0x1C82, 0x1C82, 1, -6244),
    (0x1C83, 0x1C84, 1, -6242), (0x1C85, 0x1C85, 1, -6243),
    (0x1C86, 0x1C86, 1, -6236), (0x1C87, 0x1C87, 1, -6181),
    (0x1C88, 0x1C88, 1, 35266), (0x1D79, 0x1D79, 1, 35332),
    (0x1D7D, 0x1D7D, 1, 3814), (0x1D8E, 0x1D8E, 1, 35384),
    (0x1E01, 0x1E95, 2, -1), (0x1E9B, 0x1E9B, 1, -59),
    (0x1EA1, 0x1EFF, 2, -1), (0x1F00, 0x1F07, 1, 8), (0x1F10, 0x1F15, 1, 8),
    (0x1F20, 0x1F27, 1, 8), (0x1F30, 0x1F37, 1, 8), (0x1F40, 0x1F45, 1, 8),
    (0x1F51, 0x1F57, 2, 8), (0x1F60, 0x1F67, 1, 8), (0x1F70, 0x1F71, 1, 74),
    (0x1F72, 0x1F75, 1, 86), (0x1F76, 0x1F77, 1, 100),
    (0x1F78, 0x1F79, 1, 128), (0x1F7A, 0x1F7B, 1, 112),
    (0x1F7C, 0x1F7D, 1, 126), (0x1FB0, 0x1FB1, 1, 8),
    (0x1FBE, 0x1FBE, 1, -7205), (0x1FD0, 0x1FD1, 1, 8),
    (0x1FE0, 0x1FE1, 1, 8), (0x1FE5, 0x1FE5, 1, 7), (0x214E, 0x214E, 1, -28),
    (0x2170, 0x217F, 1, -16), (0x2184, 0x2184, 1, -1),
    (0x24D0, 0x24E9, 1, -26), (0x2C30, 0x2C5F, 1, -48),
    (0x2C61, 0x2C61, 1, -1), (0x2C65, 0x2C65, 1, -10795),
    (0x2C66, 0x2C66, 1, -10792), (0x2C68, 0x2C6C, 2, -1),
    (0x2C73, 0x2C73, 1, -1), (0x2C76, 0x2C76, 1, -1), (0x2C81, 0x2CE3, 2, -1),
    (0x2CEC, 0x2CEE, 2, -1), (0x2CF3, 0x2CF3, 1, -1),
    (0x2D00, 0x2D25, 1, -7264), (0x2D27, 0x2D27, 1, -7264),
    (0x2D2D, 0x2D2D, 1, -7264), (0xA641, 0xA66D, 2, -1),
    (0xA681, 0xA69B, 2, -1), (0xA723, 0xA72F, 2, -1), (0xA733, 0xA76F, 2, -1),
    (0xA77A, 0xA77C, 2, -1), (0xA77F, 0xA787, 2, -1), (0xA78C, 0xA78C, 1, -1),
    (0xA791, 0xA793, 2, -1), (0xA794, 0xA794, 1, 48), (0xA797, 0xA7A9, 2, -1),
    (0xA7B5, 0xA7C3, 2, -1), (0xA7C8, 0xA7CA, 2, -1), (0xA7D1, 0xA7D1, 1, -1),
    (0xA7D7, 0xA7D9, 2, -1), (0xA7F6, 0xA7F6, 1, -1),
    (0xAB53, 0xAB53, 1, -928), (0xAB70, 0xABBF, 1, -38864),
    (0xFF41, 0xFF5A, 1, -32), (0x10428, 0x1044F, 1, -40),
    (0x104D8, 0x104FB, 1, -40), (0x10597, 0x105A1, 1, -39),
    (0x105A3, 0x105B1, 1, -39), (0x105B3, 0x105B9, 1, -39),
    (0x105BB, 0x105BC, 1, -39), (0x10CC0, 0x10CF2, 1, -64),
    (0x118C0, 0x118DF, 1, -32), (0x16E60, 0x16E7F, 1, -32),
    (0x1E922, 0x1E943, 1, -34)]

/-- Code points whose `str.upper()` form is more than one character
(sharp s, ligatures, and similar), with the code points of that form.
Generated from CPython's Unicode database and checked against it on
every code point. -/
def upperMulti : List (Nat × List Nat) :=
  [
    (0xDF, [0x53, 0x53]), (0x149, [0x2BC, 0x4E]), (0x1F0, [0x4A, 0x30C]),
    (0x390, [0x399, 0x308, 0x301]), (0x3B0, [0x3A5, 0x308, 0x301]),
    (0x587, [0x535, 0x552]), (0x1E96, [0x48, 0x331]), (0x1E97, [0x54, 0x308]),
    (0x1E98, [0x57, 0x30A]), (0x1E99, [0x59, 0x30A]), (0x1E9A, [0x41, 0x2BE]),
    (0x1F50, [0x3A5, 0x313]), (0x1F52, [0x3A5, 0x313, 0x300]),
    (0x1F54, [0x3A5, 0x313, 0x301]), (0x1F56, [0x3A5, 0x313, 0x342]),
    (0x1F80, [0x1F08, 0x399]), (0x1F81, [0x1F09, 0x399]),
    (0x1F82, [0x1F0A, 0x399]), (0x1F83, [0x1F0B, 0x399]),
    (0x1F84, [0x1F0C, 0x399]), (0x1F85, [0x1F0D, 0x399]),
    (0x1F86, [0x1F0E, 0x399]), (0x1F87, [0x1F0F, 0x399]),
    (0x1F88, [0x1F08, 0x399]), (0x1F89, [0x1F09, 0x399]),
    (0x1F8A, [0x1F0A, 0x399]), (0x1F8B, [0x1F0B, 0x399]),
    (0x1F8C, [0x1F0C, 0x399]), (0x1F8D, [0x1F0D, 0x399]),
    (0x1F8E, [0x1F0E, 0x399]), (0x1F8F, [0x1F0F, 0x399]),
    (0x1F90, [0x1F28, 0x399]), (0x1F91, [0x1F29, 0x399]),
    (0x1F92, [0x1F2A, 0x399]), (0x1F93, [0x1F2B, 0x399]),
    (0x1F94, [0x1F2C, 0x399]), (0x1F95, [0x1F2D, 0x399]),
    (0x1F96, [0x1F2E, 0x399]), (0x1F97, [0x1F2F, 0x399]),
    (0x1F98, [0x1F28, 0x399]), (0x1F99, [0x1F29, 0x399]),
    (0x1F9A, [0x1F2A, 0x399]), (0x1F9B, [0x1F2B, 0x399]),
    (0x1F9C, [0x1F2C, 0x399]), (0x1F9D, [0x1F2D, 0x399]),
    (0x1F9E, [0x1F2E, 0x399]), (0x1F9F, [0x1F2F, 0x399]),
    (0x1FA0, [0x1F68, 0x399]), (0x1FA1, [0x1F69, 0x399]),
    (0x1FA2, [0x1F6A, 0x399]), (0x1FA3, [0x1F6B, 0x399]),
    (0x1FA4, [0x1F6C, 0x399]), (0x1FA5, [0x1F6D, 0x399]),
    (0x1FA6, [0x1F6E, 0x399]), (0x1FA7, [0x1F6F, 0x399]),
    (0x1FA8, [0x1F68, 0x399]), (0x1FA9, [0x1F69, 0x399]),
    (0x1FAA, [0x1F6A, 0x399]), (0x1FAB, [0x1F6B, 0x399]),
    (0x1FAC, [0x1F6C, 0x399]), (0x1FAD, [0x1F6D, 0x399]),
    (0x1FAE, [0x1F6E, 0x399]), (0x1FAF, [0x1F6F, 0x399]),
    (0x1FB2, [0x1FBA, 0x399]), (0x1FB3, [0x391, 0x399]),
    (0x1FB4, [0x386, 0x399]), (0x1FB6, [0x391, 0x342]),
    (0x1FB7, [0x391, 0x342, 0x399]), (0x1FBC, [0x391, 0x399]),
    (0x1FC2, [0x1FCA, 0x399]), (0x1FC3, [0x397, 0x399]),
    (0x1FC4, [0x389, 0x399]), (0x1FC6, [0x397, 0x342]),
    (0x1FC7, [0x397, 0x342, 0x399]), (0x1FCC, [0x397, 0x399]),
    (0x1FD2, [0x399, 0x308, 0x300]), (0x1FD3, [0x399, 0x308, 0x301]),
    (0x1FD6, [0x399, 0x342]), (0x1FD7, [0x399, 0x308, 0x342]),
    (0x1FE2, [0x3A5, 0x308, 0x300]), (0x1FE3, [0x3A5, 0x308, 0x301]),
    (0x1FE4, [0x3A1, 0x313]), (0x1FE6, [0x3A5, 0x342]),
    (0x1FE7, [0x3A5, 0x308, 0x342]), (0x1FF2, [0x1FFA, 0x399]),
    (0x1FF3, [0x3A9, 0x399]), (0x1FF4, [0x38F, 0x399]),
    (0x1FF6, [0x3A9, 0x342]), (0x1FF7, [0x3A9, 0x342, 0x399]),
    (0x1FFC, [0x3A9, 0x399]), (0xFB00, [0x46, 0x46]), (0xFB01, [0x46, 0x49]),
    (0xFB02, [0x46, 0x4C]), (0xFB03, [0x46, 0x46, 0x49]),
    (0xFB04, [0x46, 0x46, 0x4C]), (0xFB05, [0x53, 0x54]),
    (0xFB06, [0x53, 0x54]), (0xFB13, [0x544, 0x546]),
    (0xFB14, [0x544, 0x535]), (0xFB15, [0x544, 0x53B]),
    (0xFB16, [0x54E, 0x546]), (0xFB17, [0x544, 0x53D])]

/-- Embeds `str.upper()` on one character: the full case mapping of the
Unicode database (a character may uppercase to several characters, as the
sharp s does); characters without an entry are unchanged. -/
def pyUpperChar (c : Char) : List Char :=
  let n := c.toNat
  match upperMulti.find? (fun p => decide (p.1 = n)) with
  | some p => p.2.map Char.ofNat
  | none =>
    match upperRules.find? (fun r =>
        decide (r.1 ≤ n ∧ n ≤ r.2.1 ∧ (n - r.1) % r.2.2.1 = 0)) with
    | some r => [Char.ofNat ((n : Int) + r.2.2.2).toNat]
    | none => [c]

/-- Embeds `str.upper()` on a character list. -/
def pyUpper (l : List Char) : List Char :=
  l.flatMap pyUpperChar

/-- Embeds `limpa_nome` (src/app.py lines 60-72): empty guard,
`str(nome).strip().upper()`, then, when `apenas_primeiro_nome` is set,
the first whitespace-separated token (or empty when nothing is left). -/
def limpa_nome (nome : Cell) (apenas_primeiro_nome : Bool) : String :=
  if cellEmpty nome then ""
  else
    let nome_str := pyUpper (pyStrip (cellToText nome).data)
    if apenas_primeiro_nome then
      if nome_str = [] then "" else String.mk ((pySplitWs nome_str).headD [])
    else String.mk nome_str

/-!
The three splitting passes of `separar_telefones_multiplos`
(src/app.py line 42):

* pass A: `\s*[;,/]\s*`
* pass B: `\s*-\s*(?=\d)`
* pass C: `\s+(?=\d{2}\s*\d{4,5}[-\s]?\d{4})`

`re.split` finds the leftmost match, emits the fragment before it,
and resumes scanning after the match.  Each `tryX` function attempts a
match starting at the current position and, on success, returns the
input with the matched text removed (the lookahead part is not
consumed).  The greedy `\s*`/`\s+`/`\d{4,5}` pieces need no backtracking
search here: shortening a greedy whitespace run leaves a whitespace
character where the pattern next requires a separator or a digit, so
only the maximal run can succeed, and the two lengths of `\d{4,5}`
together with the optional `[-\s]?` are tried exhaustively.

The scanners `splitXCore` walk the input one character at a time,
attempting a match at every position, with fuel equal to the input
length (every match consumes at least one character, so this fuel is
always sufficient; the fuel-exhausted branch is unreachable from
`splitX`).
-/

/-- Match of pass A (`\s*[;,/]\s*`) at the head of `l`. -/
def tryA (l : List Char) : Option (List Char) :=
  match l.dropWhile isPySpace with
  | c :: rest =>
    if c = ';' ∨ c = ',' ∨ c = '/' then some (rest.dropWhile isPySpace) else none
  | [] => none

/-- Match of pass B (`\s*-\s*(?=\d)`) at the head of `l`. -/
def tryB (l : List Char) : Option (List Char) :=
  match l.dropWhile isPySpace with
  | c :: rest =>
    if c = '-' then
      let r := rest.dropWhile isPySpace
      match r with
      | d :: _ => if isPyDigit d then some r else none
      | [] => none
    else none
  | [] => none

/-- `some rest` when `l` starts with at least `k` `\d` characters,
`rest` being what follows them. -/
def dropDigits : Nat → List Char → Option (List Char)
  | 0, l => some l
  | _ + 1, [] => none
  | k + 1, c :: rest => if isPyDigit c then dropDigits k rest else none

/-- The tail `[-\s]?\d{4}` of the pass C lookahead. -/
def lookCTail (l : List Char) : Bool :=
  (match l with
   | c :: rest =>
     if c = '-' ∨ isPySpace c then (dropDigits 4 rest).isSome else false
   | [] => false)
  || (dropDigits 4 l).isSome

/-- The pass C lookahead `\d{2}\s*\d{4,5}[-\s]?\d{4}` at the head of `l`. -/
def lookC (l : List Char) : Bool :=
  match l with
  | a :: b :: rest =>
    if isPyDigit a ∧ isPyDigit b then
      let r := rest.dropWhile isPySpace
      (match dropDigits 5 r with
       | some r5 => lookCTail r5
       | none => false)
      || (match dropDigits 4 r with
          | some r4 => lookCTail r4
          | none => false)
    else false
  | _ => false

/-- Match of pass C (`\s+` with the phone-shape lookahead) at the head
of `l`. -/
def tryC (l : List Char) : Option (List Char) :=
  match l with
  | c :: _ =>
    if isPySpace c then
      let rest := l.dropWhile isPySpace
      if lookC rest then some rest else none
    else none
  | [] => none

/-- `re.split` scanner for pass A. -/
def splitACore : Nat → List Char → List Char → List (List Char)
  | _, acc, [] => [acc.reverse]
  | 0, acc, l => [acc.reverse ++ l]
  | fuel + 1, acc, c :: rest =>
    match tryA (c :: rest) with
    | some rest1 => acc.reverse :: splitACore fuel [] rest1
    | none => splitACore fuel (c :: acc) rest

/-- `re.split` scanner for pass B. -/
def splitBCore : Nat → List Char → List Char → List (List Char)
  | _, acc, [] => [acc.reverse]
  | 0, acc, l => [acc.reverse ++ l]
  | fuel + 1, acc, c :: rest =>
    match tryB (c :: rest) with
    | some rest1 => acc.reverse :: splitBCore fuel [] rest1
    | none => splitBCore fuel (c :: acc) rest

/-- `re.split` scanner for pass C. -/
def splitCCore : Nat → List Char → List Char → List (List Char)
  | _, acc, [] => [acc.reverse]
  | 0, acc, l => [acc.reverse ++ l]
  | fuel + 1, acc, c :: rest =>
    match tryC (c :: rest) with
    | some rest1 => acc.reverse :: splitCCore fuel [] rest1
    | none => splitCCore fuel (c :: acc) rest

/-- `re.split(r"\s*[;,/]\s*", ...)`. -/
def splitA (l : List Char) : List (List Char) := splitACore l.length [] l

/-- `re.split` for the hyphen pattern of pass B. -/
def splitB (l : List Char) : List (List Char) := splitBCore l.length [] l

/-- `re.split` for the phone-shape pattern of pass C. -/
def splitC (l : List Char) : List (List Char) := splitCCore l.length [] l

/-- The sequential fragmentation pipeline of src/app.py lines 44-49:
start from the whole string and let each pass re-split every fragment
produced by the previous one. -/
def fragments (s : String) : List (List Char) :=
  ((([s.data].flatMap splitA).flatMap splitB).flatMap splitC)

/-- Cleaning of one fragment (src/app.py line 54):
`re.sub(r"[^\d]", "", tel.strip())`. -/
def cleanTel (l : List Char) : String :=
  String.mk ((pyStrip l).filter isPyDigit)

/-- Embeds `separar_telefones_multiplos` (src/app.py lines 32-58):
empty guard, `str(...)`, the three splitting passes, then cleaning and
the minimum-8-digits filter. -/
def separar_telefones_multiplos (telefone_str : Cell) : List String :=
  if cellEmpty telefone_str then []
  else
    ((fragments (cellToText telefone_str)).map cleanTel).filter
      (fun t => decide (8 ≤ t.length))

/-- One input row of the table: an ordered sequence of scalar cells. -/
abbrev Row := List Cell

/-- The configuration dictionary built by the interface
(src/app.py lines 219-226). -/
structure Config where
  nome_col : Nat
  cpf_col : Nat
  telefone_cols : List Nat
  apenas_primeiro_nome : Bool
  remover_sem_telefone : Bool
  max_telefones : Nat
deriving DecidableEq

/-- One output record: the keys `Nome`, `CPF` and
`DDD/Telefone 1 .. DDD/Telefone K` are modelled positionally, the
phone slots as a list. -/
structure Registro where
  nome : String
  cpf : String
  telefones : List String
deriving DecidableEq

/-- `row.iloc[nome_col] if nome_col < len(row) else ''`
(src/app.py line 102). -/
def nome_original (config : Config) (row : Row) : Cell :=
  row.getD config.nome_col (Cell.text "")

/-- `row.iloc[cpf_col] if cpf_col < len(row) else ''`
(src/app.py line 103). -/
def cpf_original (config : Config) (row : Row) : Cell :=
  row.getD config.cpf_col (Cell.text "")

/-- The phone numbers contributed by one configured phone column
(src/app.py lines 113-117): a column index at or beyond the row length
is skipped and contributes nothing. -/
def telefones_da_coluna (row : Row) (tel_col : Nat) : List String :=
  if tel_col < row.length then
    separar_telefones_multiplos (row.getD tel_col (Cell.text ""))
  else []

/-- The running phone list accumulated over the configured phone
columns, in configured order (src/app.py lines 112-117). -/
def telefones_descobertos (config : Config) (row : Row) : List String :=
  config.telefone_cols.flatMap (telefones_da_coluna row)

/-- The phone list after truncation to `max_telefones` and padding with
empty strings (src/app.py lines 119-124). -/
def telefones_processados (config : Config) (row : Row) : List String :=
  let t := (telefones_descobertos config row).take config.max_telefones
  t ++ List.replicate (config.max_telefones - t.length) ""

/-- The output record built for one row (src/app.py lines 128-135). -/
def registroDe (config : Config) (row : Row) : Registro :=
  { nome := limpa_nome (nome_original config row) config.apenas_primeiro_nome
    cpf := limpa_cpf_google_sheets (cpf_original config row)
    telefones := telefones_processados config row }

/-- The per-row step of `processar_arquivo` (src/app.py lines 101-137):
the record is kept when the drop option is off or some phone slot is a
non-empty (truthy) string. -/
def processRow (config : Config) (row : Row) : Option Registro :=
  if !config.remover_sem_telefone
      || (telefones_processados config row).any (fun tel => decide (tel ≠ "")) then
    some (registroDe config row)
  else none

/-- Embeds `processar_arquivo` (src/app.py lines 74-146) minus the
progress display: every row is processed in order and the kept records
are collected.  The progress bar and status text only read the loop
index and never touch the accumulated data. -/
def processar_arquivo (df : List Row) (config : Config) : List Registro :=
  df.filterMap (processRow config)

/-- A configuration with the drop-rows-without-phone option off, used by
concrete witnesses. -/
def cfgKeep : Config :=
  { nome_col := 0, cpf_col := 1, telefone_cols := [2],
    apenas_primeiro_nome := true, remover_sem_telefone := false,
    max_telefones := 4 }

/-- A sample row with one phone cell, used by concrete witnesses. -/
def rowPhones : Row :=
  [Cell.text "ana maria", Cell.text "123", Cell.text "11 988887777"]

/-- A sample row whose phone cell is empty, used by concrete witnesses. -/
def rowNoPhone : Row :=
  [Cell.text "bia", Cell.text "9", Cell.text ""]

/-- A configuration whose name column index is out of range for
one-cell rows, used by concrete witnesses. -/
def cfgFarCols : Config :=
  { nome_col := 5, cpf_col := 4, telefone_cols := [43, 44, 45, 46],
    apenas_primeiro_nome := true, remover_sem_telefone := true,
    max_telefones := 4 }

/-- A short sample row, used by concrete witnesses. -/
def rowShort : Row := [Cell.text "a"]

/-- A sample table for the noninterference witness. -/
def dfLeft : List Row :=
  [[Cell.text "ana", Cell.text "1", Cell.text "12345678", Cell.text "X"]]

/-- The same table with a different value in the unconfigured fourth
column. -/
def dfRight : List Row :=
  [[Cell.text "ana", Cell.text "1", Cell.text "12345678", Cell.text "Y"]]

/-- The configuration for the noninterference witness: column 3 is not
read. -/
def cfgThreeCols : Config :=
  { nome_col := 0, cpf_col := 1, telefone_cols := [2],
    apenas_primeiro_nome := true, remover_sem_telefone := true,
    max_telefones := 2 }

/-- Agreement of two rows on every configured column (name, identifier
and each phone column), reading out-of-range cells as the empty text the
code substitutes for them. -/
def RowAgree (config : Config) (r1 r2 : Row) : Prop :=
  r1.length = r2.length ∧
    ∀ j ∈ config.nome_col :: config.cpf_col :: config.telefone_cols,
      r1.getD j (Cell.text "") = r2.getD j (Cell.text "")

instance (config : Config) (r1 r2 : Row) : Decidable (RowAgree config r1 r2) := by
  unfold RowAgree; infer_instance

/-! ### Helper lemmas -/

/-! ### Sanity checks on concrete inputs -/

example : limpa_cpf_google_sheets (Cell.text "123") = "00000000123" := by decide
example : limpa_cpf_google_sheets (Cell.text "") = "" := by decide
example : limpa_cpf_google_sheets Cell.missing = "" := by decide
example : limpa_cpf_google_sheets (Cell.text "529.982.247-25") = "52998224725" := by decide
example : limpa_cpf_google_sheets (Cell.num 12345678901234) = "45678901234" := by decide
example : natToDec 0 = "0" := by decide
example : natToDec 105 = "105" := by decide
example : intToDec (-42) = "-42" := by decide

example : limpa_nome (Cell.text "  joão da silva ") true = "JOÃO" := by decide
example : limpa_nome (Cell.text "  joão da silva ") false = "JOÃO DA SILVA" := by decide
example : limpa_nome (Cell.text "") true = "" := by decide
example : limpa_nome (Cell.text "   ") true = "" := by decide

example : separar_telefones_multiplos Cell.missing = [] := by decide
example : separar_telefones_multiplos (Cell.text "abc") = [] := by decide
example : separar_telefones_multiplos (Cell.text "11988887777") = ["11988887777"] := by decide
example : separar_telefones_multiplos (Cell.text "(11) 2345 6789, 1187654321") =
    ["1123456789", "1187654321"] := by decide
example : separar_telefones_multiplos (Cell.text "11 98888-7777; 11 97777-6666") = [] := by decide
example : fragments "11 98888-7777; 11 97777-6666" =
    ["11 98888".data, "7777".data, "11 97777".data, "6666".data] := by decide


theorem toNat_bounds_of_isDigit {c : Char} (h : c.isDigit = true) :
    48 ≤ c.toNat ∧ c.toNat ≤ 57 := by
  simpa [Char.isDigit] using h

theorem isPyDigit_of_isDigit {c : Char} (h : c.isDigit = true) : isPyDigit c = true := by
  obtain ⟨h1, h2⟩ := toNat_bounds_of_isDigit h
  simp only [isPyDigit, ndRanges, decide_eq_true_iff]
  exact ⟨(0x30, 0x39), by simp, by omega, by omega⟩

theorem decDigit_isDigit (m : Nat) : (decDigit m).isDigit = true := by
  unfold decDigit
  repeat' split
  all_goals decide

theorem natToDecAux_digits :
    ∀ fuel n acc, (∀ c ∈ acc, c.isDigit = true) →
      ∀ c ∈ natToDecAux fuel n acc, c.isDigit = true := by
  intro fuel
  induction fuel with
  | zero =>
    intro n acc hacc c hc
    match n with
    | 0 => exact hacc c hc
    | _ + 1 => exact hacc c hc
  | succ fuel ih =>
    intro n acc hacc c hc
    match n with
    | 0 => exact hacc c hc
    | m + 1 =>
      refine ih ((m + 1) / 10) (decDigit (m + 1) :: acc) ?_ c hc
      intro d hd
      rcases List.mem_cons.mp hd with h | h
      · subst h; exact decDigit_isDigit (m + 1)
      · exact hacc d h

theorem natToDec_digits (n : Nat) : ∀ c ∈ (natToDec n).data, c.isDigit = true := by
  unfold natToDec
  split
  · intro c hc
    simp only [List.mem_singleton, show ("0" : String).data = ['0'] from rfl] at hc
    subst hc; decide
  · exact natToDecAux_digits n n [] (by intro c hc; cases hc)

theorem intToDec_natCast (n : Nat) : intToDec (n : Int) = natToDec n := by
  unfold intToDec
  rw [if_neg (Int.not_lt.mpr (Int.natCast_nonneg n)), Int.toNat_natCast]

theorem dropWhile_eq_self_of_none {p : Char → Bool} {l : List Char}
    (h : ∀ c ∈ l, p c = false) : l.dropWhile p = l := by
  cases l with
  | nil => rfl
  | cons a t =>
    rw [List.dropWhile_cons, h a (List.mem_cons_self a t)]
    simp

theorem pyStrip_eq_self {l : List Char} (h : ∀ c ∈ l, isPySpace c = false) :
    pyStrip l = l := by
  unfold pyStrip
  rw [dropWhile_eq_self_of_none h,
    dropWhile_eq_self_of_none (by intro c hc; exact h c (List.mem_reverse.mp hc)),
    List.reverse_reverse]

theorem splitWsAux_no_space :
    ∀ l acc, l ≠ [] → (∀ c ∈ l, isPySpace c = false) →
      splitWsAux acc l = [acc.reverse ++ l] := by
  intro l
  induction l with
  | nil => intro acc h; exact absurd rfl h
  | cons a t ih =>
    intro acc _ hns
    unfold splitWsAux
    rw [hns a (List.mem_cons_self a t)]
    simp only [Bool.false_eq_true, if_false]
    cases t with
    | nil =>
      unfold splitWsAux
      rw [if_neg (by simp)]
      simp
    | cons b u =>
      rw [ih (a :: acc) (by simp) (fun c hc => hns c (List.mem_cons_of_mem a hc))]
      simp

theorem limpa_cpf_eq_of_not_empty (c : Cell) (h : ¬ cellEmpty c) :
    limpa_cpf_google_sheets c =
      String.mk (pyLast11 ("00000000000".data ++ (cellToText c).data.filter isPyDigit)) := by
  unfold limpa_cpf_google_sheets
  rw [if_neg h]

theorem pyLast11_length {l : List Char} (h : 11 ≤ l.length) :
    (pyLast11 l).length = 11 := by
  unfold pyLast11
  rw [List.length_drop]
  omega

theorem mem_of_mem_pyLast11 {l : List Char} {c : Char} (h : c ∈ pyLast11 l) : c ∈ l :=
  List.drop_subset _ l h

theorem zeros_data_digits : ∀ c ∈ ("00000000000" : String).data, isPyDigit c = true := by
  decide

theorem flatMap_congr_mem {α β : Type} {l : List α} {f g : α → List β}
    (h : ∀ x ∈ l, f x = g x) : l.flatMap f = l.flatMap g := by
  induction l with
  | nil => rfl
  | cons a t ih =>
    rw [List.flatMap_cons, List.flatMap_cons, h a (List.mem_cons_self a t),
      ih (fun x hx => h x (List.mem_cons_of_mem a hx))]

theorem processRow_congr (config : Config) {r1 r2 : Row} (h : RowAgree config r1 r2) :
    processRow config r1 = processRow config r2 := by
  obtain ⟨hlen, hj⟩ := h
  have hnome : nome_original config r1 = nome_original config r2 := by
    unfold nome_original
    exact hj config.nome_col (by simp)
  have hcpf : cpf_original config r1 = cpf_original config r2 := by
    unfold cpf_original
    exact hj config.cpf_col (by simp)
  have htel : telefones_descobertos config r1 = telefones_descobertos config r2 := by
    unfold telefones_descobertos
    refine flatMap_congr_mem ?_
    intro col hcol
    unfold telefones_da_coluna
    rw [hlen, hj col (by simp [hcol])]
  have hproc : telefones_processados config r1 = telefones_processados config r2 := by
    unfold telefones_processados
    rw [htel]
  unfold processRow registroDe
  rw [hnome, hcpf, hproc]

theorem processar_congr (config : Config) :
    ∀ df1 df2 : List Row, df1.length = df2.length →
      (∀ i, i < df1.length → RowAgree config (df1.getD i []) (df2.getD i [])) →
      processar_arquivo df1 config = processar_arquivo df2 config := by
  intro df1
  induction df1 with
  | nil =>
    intro df2 hlen _
    cases df2 with
    | nil => rfl
    | cons r t => simp at hlen
  | cons r1 t1 ih =>
    intro df2 hlen hag
    cases df2 with
    | nil => simp at hlen
    | cons r2 t2 =>
      have h0 := hag 0 (by simp)
      rw [List.getD_cons_zero, List.getD_cons_zero] at h0
      have htail := ih t2 (by simpa using hlen) (fun i hi => by
        have := hag (i + 1) (by simpa using Nat.succ_lt_succ hi)
        rwa [List.getD_cons_succ, List.getD_cons_succ] at this)
      simp only [processar_arquivo] at htail ⊢
      rw [List.filterMap_cons, List.filterMap_cons, processRow_congr config h0, htail]

theorem processRow_eq_none_iff (config : Config) (row : Row) :
    processRow config row = none ↔
      config.remover_sem_telefone = true ∧
        ∀ t ∈ telefones_processados config row, t = "" := by
  unfold processRow
  rcases hrem : config.remover_sem_telefone with _ | _ <;>
    simp [hrem, List.any_eq_true]

theorem processRow_of_not_remover (config : Config) (row : Row)
    (h : config.remover_sem_telefone = false) :
    processRow config row = some (registroDe config row) := by
  unfold processRow
  rw [h]
  simp

theorem string_mk_data (s : String) : String.mk s.data = s := by
  cases s
  rfl

theorem data_ne_nil_of_ne_empty {s : String} (h : s ≠ "") : s.data ≠ [] := by
  intro contra
  apply h
  cases s with
  | mk l => subst contra; rfl

theorem cell_text_not_empty {s : String} (h : s ≠ "") :
    ¬ cellEmpty (Cell.text s) := by
  simp [cellEmpty, h]

theorem limpa_nome_token {t : String} (hne : t ≠ "")
    (hns : ∀ c ∈ t.data, isPySpace c = false)
    (hup : pyUpper t.data = t.data) :
    limpa_nome (Cell.text t) true = t := by
  have hdne : t.data ≠ [] := data_ne_nil_of_ne_empty hne
  unfold limpa_nome
  rw [if_neg (cell_text_not_empty hne)]
  show (if pyUpper (pyStrip t.data) = [] then ""
    else String.mk ((pySplitWs (pyUpper (pyStrip t.data))).headD [])) = t
  rw [pyStrip_eq_self hns, hup, if_neg hdne]
  show String.mk ((splitWsAux [] t.data).headD []) = t
  rw [splitWsAux_no_space t.data [] hdne hns]
  simp [string_mk_data]

/-! ### Claims -/

/-- Claim C1, counterexample: the hyphen pass does NOT avoid the inside
of a hyphenated phone number, so on the spec's own example the function
does not return the two phone numbers. -/
theorem claim_C1_counterexample :
    separar_telefones_multiplos (Cell.text "11 98888-7777; 11 97777-6666") ≠
      ["11988887777", "11977776666"] := by
  decide

/-- Claim C1, amended: the hyphen pass splits at every hyphen that is
immediately followed by a digit — including the hyphen inside a single
phone number written as area-code-number — so the input
"11 98888-7777; 11 97777-6666" fragments into pieces of fewer than 8
digits each and the function returns the empty sequence. -/
theorem claim_C1 :
    separar_telefones_multiplos (Cell.text "11 98888-7777; 11 97777-6666") = [] ∧
      fragments "11 98888-7777; 11 97777-6666" =
        ["11 98888".data, "7777".data, "11 97777".data, "6666".data] := by
  exact ⟨by decide, by decide⟩

/-- Claim C2, evaluation at the failing input: `pd.read_csv` delivers a
numeric column as float64 whenever it contains a blank (the `pd.isna`
guard exists because such values arrive), and the code converts cells
with a bare `str()`.  For the float64 cell 12345678901234.0 that text is
"12345678901234.0", whose stripped digits gain a trailing zero, so the
result is "56789012340" — not the "45678901234" the claim requires (an
`int` cell of the same value does give "45678901234"; the code has no
explicit decimal-formatting step to make float cells do the same, and at
1e16 `str()` even switches to exponent notation). -/
theorem claim_C2 :
    cellToText (Cell.fnum ⟨12345678901234, by decide⟩) = "12345678901234.0" ∧
    limpa_cpf_google_sheets (Cell.fnum ⟨12345678901234, by decide⟩) = "56789012340" ∧
    limpa_cpf_google_sheets (Cell.fnum ⟨12345678901234, by decide⟩) ≠ "45678901234" ∧
    limpa_cpf_google_sheets (Cell.num 12345678901234) = "45678901234" := by
  exact ⟨by decide, by decide, by decide, by decide⟩

/-- Claim C3, counterexample: the regex class `\d` keeps any Unicode
decimal digit, so for Arabic-Indic digit input the output is not made
of ASCII digits (and is not the all-zero string that removing every
non-ASCII-digit character would give). -/
theorem claim_C3_counterexample :
    limpa_cpf_google_sheets (Cell.text "١٢٣") = "00000000١٢٣" ∧
      ¬ (∀ c ∈ (limpa_cpf_google_sheets (Cell.text "١٢٣")).data, c.isDigit = true) := by
  exact ⟨by decide, by decide⟩

/-- Claim C3, amended: `limpa_cpf_google_sheets` returns the empty
string exactly on missing or empty input, and otherwise exactly 11
characters, each a Unicode decimal digit (the class `\d`), obtained by
removing every non-`\d` character, left-padding with '0' to length 11
and keeping the rightmost 11 characters; in particular "123" maps to
"00000000123" and "" maps to "". -/
theorem claim_C3 :
    limpa_cpf_google_sheets Cell.missing = "" ∧
    limpa_cpf_google_sheets (Cell.text "") = "" ∧
    (∀ c : Cell, ¬ cellEmpty c →
      (limpa_cpf_google_sheets c).length = 11 ∧
      (∀ ch ∈ (limpa_cpf_google_sheets c).data, isPyDigit ch = true) ∧
      limpa_cpf_google_sheets c =
        String.mk (pyLast11 ("00000000000".data ++ (cellToText c).data.filter isPyDigit))) ∧
    limpa_cpf_google_sheets (Cell.text "123") = "00000000123" := by
  refine ⟨by decide, by decide, ?_, by decide⟩
  intro c hc
  have heq := limpa_cpf_eq_of_not_empty c hc
  refine ⟨?_, ?_, heq⟩
  · rw [heq]
    refine pyLast11_length ?_
    rw [List.length_append]
    have h1 : ("00000000000".data).length = 11 := rfl
    omega
  · intro ch hch
    rw [heq] at hch
    have hmem : ch ∈ "00000000000".data ++ (cellToText c).data.filter isPyDigit :=
      mem_of_mem_pyLast11 hch
    rcases List.mem_append.mp hmem with h | h
    · exact zeros_data_digits ch h
    · exact (List.mem_filter.mp h).2

/-- Witness for C3 at a 12-digit-and-noise text cell. -/
theorem claim_C3_witness :
    (limpa_cpf_google_sheets (Cell.text "52998224725x")).length = 11 :=
  (claim_C3.2.2.1 (Cell.text "52998224725x") (by decide)).1

/-- Claim C4: for every configuration and row, the processed phone list
has exactly `max_telefones` slots — the discovered list truncated to the
first K entries and padded with empty strings up to K — and that list is
exactly what a kept output record carries. -/
theorem claim_C4 (config : Config) (row : Row) :
    (telefones_processados config row).length = config.max_telefones ∧
    telefones_processados config row =
      (telefones_descobertos config row).take config.max_telefones ++
        List.replicate
          (config.max_telefones - (telefones_descobertos config row).length) "" ∧
    ∀ rec, processRow config row = some rec →
      rec.telefones = telefones_processados config row := by
  refine ⟨?_, ?_, ?_⟩
  · show ((telefones_descobertos config row).take config.max_telefones ++
      List.replicate (config.max_telefones -
        ((telefones_descobertos config row).take config.max_telefones).length) "").length =
      config.max_telefones
    rw [List.length_append, List.length_replicate, List.length_take]
    omega
  · show (telefones_descobertos config row).take config.max_telefones ++
      List.replicate (config.max_telefones -
        ((telefones_descobertos config row).take config.max_telefones).length) "" = _
    rw [List.length_take]
    congr 2
    omega
  · intro rec h
    unfold processRow at h
    split at h
    · injection h with h1
      rw [← h1]
      rfl
    · exact Option.noConfusion h

/-- Witness for C4: a concrete kept record carries the processed phone
list. -/
theorem claim_C4_witness :
    (Registro.mk "ANA" "00000000123" ["11988887777", "", "", ""]).telefones =
      telefones_processados cfgKeep rowPhones :=
  (claim_C4 cfgKeep rowPhones).2.2
    (Registro.mk "ANA" "00000000123" ["11988887777", "", "", ""]) (by decide)

/-- Claim C5: a row is dropped exactly when the drop-rows-without-phone
option is on and every processed phone slot is the empty string; with
the option off the row is always kept, carrying the record the code
builds (whose phone slots are then all empty strings when no phone was
found). -/
theorem claim_C5 (config : Config) (row : Row) :
    (processRow config row = none ↔
      config.remover_sem_telefone = true ∧
        ∀ t ∈ telefones_processados config row, t = "") ∧
    (config.remover_sem_telefone = false →
      processRow config row = some (registroDe config row)) :=
  ⟨processRow_eq_none_iff config row, processRow_of_not_remover config row⟩

/-- Witness for C5: with the option off, a row without any phone is
kept. -/
theorem claim_C5_witness :
    processRow cfgKeep rowNoPhone = some (registroDe cfgKeep rowNoPhone) ∧
      (registroDe cfgKeep rowNoPhone).telefones = ["", "", "", ""] :=
  ⟨(claim_C5 cfgKeep rowNoPhone).2 (by decide), by decide⟩

/-- Claim C6: re-running the normalizers on their own output is the
identity: a string of exactly 11 ASCII digits passes
`limpa_cpf_google_sheets` unchanged, and every already upper-cased
single token — a non-empty string without whitespace characters that
`str.upper()` leaves unchanged — passes `limpa_nome` with the
first-name-only flag unchanged. -/
theorem claim_C6 :
    (∀ s : String, s.length = 11 → (∀ c ∈ s.data, c.isDigit = true) →
      limpa_cpf_google_sheets (Cell.text s) = s) ∧
    (∀ t : String, t ≠ "" → (∀ c ∈ t.data, isPySpace c = false) →
      pyUpper t.data = t.data →
      limpa_nome (Cell.text t) true = t) := by
  constructor
  · intro s h11 hdig
    have hne : s ≠ "" := by
      intro contra
      rw [contra] at h11
      exact absurd h11 (by decide)
    rw [limpa_cpf_eq_of_not_empty (Cell.text s) (cell_text_not_empty hne),
      show (cellToText (Cell.text s)) = s from rfl,
      List.filter_eq_self.mpr (fun c hc => isPyDigit_of_isDigit (hdig c hc))]
    unfold pyLast11
    have hsl : s.data.length = 11 := h11
    have hlen : ("00000000000".data ++ s.data).length - 11 = ("00000000000".data).length := by
      rw [List.length_append]
      have h1 : ("00000000000".data).length = 11 := rfl
      omega
    rw [hlen, List.drop_left]
  · intro t hne hns hup
    exact limpa_nome_token hne hns hup

/-- Witness for C6 at an 11-digit identifier and the tokens "JOÃO" and
"ŠIMA". -/
theorem claim_C6_witness :
    limpa_cpf_google_sheets (Cell.text "52998224725") = "52998224725" ∧
      limpa_nome (Cell.text "JOÃO") true = "JOÃO" ∧
      limpa_nome (Cell.text "ŠIMA") true = "ŠIMA" :=
  ⟨claim_C6.1 "52998224725" (by decide) (by decide),
    claim_C6.2 "JOÃO" (by decide) (by decide) (by decide),
    claim_C6.2 "ŠIMA" (by decide) (by decide) (by decide)⟩

/-- Claim C7: an out-of-range configured index makes the code read the
empty text instead of failing — the name and identifier cells fall back
to '' and an out-of-range phone column contributes no phone — and
processing is per-row, so the rest of the table is processed
unchanged. -/
theorem claim_C7 (config : Config) (row : Row) :
    (row.length ≤ config.nome_col → nome_original config row = Cell.text "") ∧
    (row.length ≤ config.cpf_col → cpf_original config row = Cell.text "") ∧
    (∀ col, row.length ≤ col → telefones_da_coluna row col = []) ∧
    (∀ df1 df2 : List Row,
      processar_arquivo (df1 ++ df2) config =
        processar_arquivo df1 config ++ processar_arquivo df2 config) := by
  refine ⟨?_, ?_, ?_, ?_⟩
  · intro h
    unfold nome_original
    exact List.getD_eq_default row _ h
  · intro h
    unfold cpf_original
    exact List.getD_eq_default row _ h
  · intro col h
    unfold telefones_da_coluna
    rw [if_neg (by omega)]
  · intro df1 df2
    unfold processar_arquivo
    exact List.filterMap_append df1 df2 _

/-- Witness for C7: with the default column indices, a one-cell row
reads empty name, empty identifier and no phones. -/
theorem claim_C7_witness :
    nome_original cfgFarCols rowShort = Cell.text "" ∧
      telefones_da_coluna rowShort 43 = [] :=
  ⟨(claim_C7 cfgFarCols rowShort).1 (by decide),
    (claim_C7 cfgFarCols rowShort).2.2.1 43 (by decide)⟩

/-- Claim C8, counterexample: a fragment of eight Arabic-Indic digits is
kept (the class `\d` matches any Unicode decimal digit), so elements of
the returned sequence need not be ASCII digits. -/
theorem claim_C8_counterexample :
    separar_telefones_multiplos (Cell.text "١٢٣٤٥٦٧٨") = ["١٢٣٤٥٦٧٨"] ∧
      ¬ (∀ c ∈ ("١٢٣٤٥٦٧٨" : String).data, c.isDigit = true) := by
  exact ⟨by decide, by decide⟩

/-- Claim C8, amended: missing or empty input yields the empty sequence;
every returned element consists only of Unicode decimal digit characters
(the class `\d`) and has at least 8 of them; the returned sequence is a
sublist of the cleaned fragments in their original left-to-right order
(fragments with fewer than 8 digits are discarded), and "abc" yields
the empty sequence. -/
theorem claim_C8 :
    separar_telefones_multiplos Cell.missing = [] ∧
    separar_telefones_multiplos (Cell.text "") = [] ∧
    (∀ c : Cell, ∀ t ∈ separar_telefones_multiplos c,
      8 ≤ t.length ∧ ∀ ch ∈ t.data, isPyDigit ch = true) ∧
    (∀ c : Cell,
      (separar_telefones_multiplos c).Sublist
        ((fragments (cellToText c)).map cleanTel)) ∧
    separar_telefones_multiplos (Cell.text "abc") = [] := by
  refine ⟨by decide, by decide, ?_, ?_, by decide⟩
  · intro c t ht
    unfold separar_telefones_multiplos at ht
    split at ht
    · exact absurd ht (List.not_mem_nil t)
    · obtain ⟨hmem, hp⟩ := List.mem_filter.mp ht
      refine ⟨of_decide_eq_true hp, ?_⟩
      obtain ⟨x, _, hcx⟩ := List.mem_map.mp hmem
      subst hcx
      intro ch hch
      exact (List.mem_filter.mp hch).2
  · intro c
    unfold separar_telefones_multiplos
    split
    · exact List.nil_sublist _
    · exact List.filter_sublist _

/-- Witness for C8 at a concrete phone cell. -/
theorem claim_C8_witness :
    8 ≤ ("1123456789" : String).length ∧
      ∀ ch ∈ ("1123456789" : String).data, isPyDigit ch = true :=
  claim_C8.2.2.1 (Cell.text "(11) 2345 6789") "1123456789" (by decide)

/-- Claim C9 (noninterference): two tables of the same shape that agree
on every configured column produce identical outputs — cells of
unconfigured columns never affect the result. -/
theorem claim_C9 (config : Config) (df1 df2 : List Row)
    (hlen : df1.length = df2.length)
    (hag : ∀ i, i < df1.length → RowAgree config (df1.getD i []) (df2.getD i [])) :
    processar_arquivo df1 config = processar_arquivo df2 config :=
  processar_congr config df1 df2 hlen hag

/-- Witness for C9: two one-row tables differing only in an unread
column process identically. -/
theorem claim_C9_witness :
    processar_arquivo dfLeft cfgThreeCols = processar_arquivo dfRight cfgThreeCols :=
  claim_C9 cfgThreeCols dfLeft dfRight (by decide) (by decide)

/-- Claim C10: a non-missing, non-empty value without any digit
character normalizes to the string of eleven zeros, not to the empty
string. -/
theorem claim_C10 (c : Cell) (h1 : ¬ cellEmpty c)
    (h2 : ∀ ch ∈ (cellToText c).data, isPyDigit ch = false) :
    limpa_cpf_google_sheets c = "00000000000" := by
  rw [limpa_cpf_eq_of_not_empty c h1]
  have hnil : (cellToText c).data.filter isPyDigit = [] :=
    List.filter_eq_nil_iff.mpr (by intro a ha; rw [h2 a ha]; exact Bool.false_ne_true)
  rw [hnil, List.append_nil]
  decide

/-- Witness for C10 at the text "abc". -/
theorem claim_C10_witness : limpa_cpf_google_sheets (Cell.text "abc") = "00000000000" :=
  claim_C10 (Cell.text "abc") (by decide) (by decide)

end Higienizacao
